import Mathlib

/-!
Verification of the OAuth2 credential-lifecycle subsystem of the
reviewboard/jira MCP servers: the `OAuth2TokenManager` (load / refresh /
persist of the durable credential record), the one-shot authorization
setup flow (`oauth-setup.ts`: callback listener, CSRF state check, code
exchange), the authentication-mode selection of the ReviewBoard client,
and the Jira instance registry.

The definitions below are a shallow embedding of the TypeScript source.
JavaScript dynamic behaviour that matters to the properties is modelled
explicitly:
  * a field that can hold `undefined` is modelled as an `Option`;
  * `NaN` arising from arithmetic on `undefined` is modelled as `none`
    in an `Option Int` field, and every `≥` comparison against it is
    `false`, as in JS;
  * string truthiness (`if (s)`) is `s` present and nonempty.
Network and file-system effects are modelled by explicit state passing:
the manager state carries the in-memory record, the persisted file
image, and counters of issued refresh requests and file writes.
-/

/-- JS truthiness of a possibly-absent string: `undefined` and `""` are falsy. -/
def jsTruthy : Option String → Bool
  | none => false
  | some s => s ≠ ""

/-- `s.toLowerCase()`, character by character. -/
def strToLower (s : String) : String := ⟨s.data.map Char.toLower⟩

/-- Whether `pat` is a prefix of the character list. -/
def isPrefixL : List Char → List Char → Bool
  | [], _ => true
  | _ :: _, [] => false
  | a :: as, b :: bs => a == b && isPrefixL as bs

/-- Whether `pat` occurs anywhere in the character list. -/
def hasSubL (pat : List Char) : List Char → Bool
  | [] => isPrefixL pat []
  | c :: cs => isPrefixL pat (c :: cs) || hasSubL pat cs

/-- The prefix of the character list before the first occurrence of `pat`. -/
def takeBeforeSub (pat : List Char) : List Char → List Char
  | [] => []
  | c :: cs => if isPrefixL pat (c :: cs) then [] else c :: takeBeforeSub pat cs

/-- `s.includes(pat)` for the nonempty literal patterns used in the source. -/
def strIncludes (s pat : String) : Bool := hasSubL pat.data s.data

/-- `s.replace(new RegExp(pat + ".*$"), "")` for a literal `pat`: drop
everything from the first occurrence of `pat` to the end of the string. -/
def dropFromSub (s pat : String) : String :=
  if strIncludes s pat then ⟨takeBeforeSub pat.data s.data⟩ else s

namespace RB

/-- The durable credential record (`OAuthConfig` in the source).
`access_token` is declared `string` in the source interface, but the
refresh path assigns `tokenData.access_token` unvalidated, which is
`undefined` when the response omits the field; hence `Option String`.
`expires_at` is likewise computed as `Date.now() + expires_in * 1000`,
which is `NaN` when `expires_in` is absent; hence `Option Int`. -/
structure OAuthConfig where
  access_token : String
  refresh_token : String
  token_type : String
  expires_at : Int
  client_id : String
  client_secret : String
  reviewboard_url : String
deriving DecidableEq, Repr

/-- The manager's credential record as it can actually evolve at run time
(JS dynamic typing): `access_token` may become `undefined` and
`expires_at` may become `NaN` after an unvalidated refresh response. -/
structure MgrConfig where
  access_token : Option String
  refresh_token : String
  token_type : String
  expires_at : Option Int
  client_id : String
  client_secret : String
  reviewboard_url : String
deriving DecidableEq, Repr

/-- A well-formed on-disk record read at construction time. -/
def MgrConfig.ofFile (c : OAuthConfig) : MgrConfig :=
  { access_token := some c.access_token
    refresh_token := c.refresh_token
    token_type := c.token_type
    expires_at := some c.expires_at
    client_id := c.client_id
    client_secret := c.client_secret
    reviewboard_url := c.reviewboard_url }

/-- JSON body of a 2xx answer from `POST {base}/oauth2/token/`.
Each field is optional: the code never validates the shape, so a
malformed 2xx body simply has `none` components. -/
structure RespBody where
  access_token : Option String
  refresh_token : Option String
  expires_in : Option Int
deriving DecidableEq, Repr

/-- Outcome of the `axios.post` refresh call: `ok body` is a 2xx answer
with parsed JSON `body`; `err` is a network error or non-2xx status
(axios rejects, landing in the `catch` block). -/
inductive HttpResult where
  | ok (body : RespBody)
  | err (msg : String)
deriving DecidableEq, Repr

/-- State of one `OAuth2TokenManager` together with its observable
effects: the in-memory record, the persisted file image, and cumulative
counters of refresh POSTs issued and file writes performed. -/
structure MgrState where
  config : MgrConfig
  file : MgrConfig
  networkCalls : Nat
  fileWrites : Nat
deriving DecidableEq, Repr

/-- Manager state freshly constructed from an on-disk record. -/
def MgrState.load (c : OAuthConfig) : MgrState :=
  { config := MgrConfig.ofFile c, file := MgrConfig.ofFile c
    networkCalls := 0, fileWrites := 0 }

/-- The error message thrown by `refreshAccessToken`'s catch block. -/
def refreshFailureMessage : String :=
  "Failed to refresh access token. You may need to run the OAuth setup again: npm run oauth-setup"

/-- The body of the `try` block after `await axios.post` resolves with a
2xx response (source lines 139-148): assign `access_token` unvalidated,
replace `refresh_token` only if the response carries a truthy one,
recompute `expires_at = Date.now() + expires_in * 1000`, then
`saveConfig()` writes the whole record to disk. `now` is the value of
`Date.now()` at that point. -/
def applyRefreshResponse (st : MgrState) (now : Int) (body : RespBody) : MgrState :=
  let cfg := st.config
  let cfg := { cfg with access_token := body.access_token }
  let cfg :=
    match body.refresh_token with
    | some rt => if rt ≠ "" then { cfg with refresh_token := rt } else cfg
    | none => cfg
  let cfg :=
    { cfg with expires_at :=
        match body.expires_in with
        | some ei => some (now + ei * 1000)
        | none => none }
  { st with config := cfg, file := cfg, fileWrites := st.fileWrites + 1 }

/-- `OAuth2TokenManager.refreshAccessToken` (source lines 120-157): issue
the refresh POST; on a 2xx answer apply the response body and save; on a
rejected promise (network error / non-2xx) mutate nothing and throw the
fixed remediation message. -/
def refreshAccessToken (st : MgrState) (now : Int) (resp : HttpResult) :
    Except String MgrState :=
  let st := { st with networkCalls := st.networkCalls + 1 }
  match resp with
  | .ok body => .ok (applyRefreshResponse st now body)
  | .err _ => .error refreshFailureMessage

/-- Five minutes in milliseconds (`expiryBuffer` in the source). -/
def expiryBuffer : Int := 5 * 60 * 1000

/-- `Date.now() >= (this.config.expires_at - expiryBuffer)`.  When
`expires_at` is `NaN` (modelled `none`) the JS comparison is `false`. -/
def isExpired (now : Int) (expires_at : Option Int) : Bool :=
  match expires_at with
  | some e => decide (now ≥ e - expiryBuffer)
  | none => false

/-- `OAuth2TokenManager.getValidAccessToken` (source lines 159-170).
`tCheck` is `Date.now()` at the expiry check; `tRefresh` is `Date.now()`
inside the refresh (the two straddle an `await`). `resp` is what the
refresh endpoint would answer if consulted; on the valid path it is
never consulted. -/
def getValidAccessToken (st : MgrState) (tCheck tRefresh : Int) (resp : HttpResult) :
    Except String (Option String × MgrState) :=
  if isExpired tCheck st.config.expires_at then
    match refreshAccessToken st tRefresh resp with
    | .ok st2 => .ok (st2.config.access_token, st2)
    | .error e => .error e
  else
    .ok (st.config.access_token, st)

/-!
Cooperative-concurrency machine for `getValidAccessToken`.  The source
runs on Node's single-threaded event loop; a call suspends exactly at
the `await axios.post` inside `refreshAccessToken`.  A call is therefore
a two-phase task: phase one runs the expiry check and, if expired,
issues the refresh POST and suspends; phase two resumes when the
response arrives, applies it (or throws) and returns
`this.config.access_token`.  There is no in-flight-promise cache in the
source, so phase one consults only the shared `config`.
-/

/-- Progress of one in-flight `getValidAccessToken()` invocation. -/
inductive CallPhase where
  | ready
  | awaitingRefresh
  | returned (tok : Option String)
  | threw (msg : String)
deriving DecidableEq, Repr

/-- One scheduler step of a single invocation: from `ready` it runs the
expiry check (issuing the POST and suspending when expired); from
`awaitingRefresh` it consumes the endpoint's answer. `now` is
`Date.now()` at the step. Completed tasks are inert. -/
def stepCall (st : MgrState) (ph : CallPhase) (now : Int) (resp : HttpResult) :
    MgrState × CallPhase :=
  match ph with
  | .ready =>
      if isExpired now st.config.expires_at then
        ({ st with networkCalls := st.networkCalls + 1 }, .awaitingRefresh)
      else
        (st, .returned st.config.access_token)
  | .awaitingRefresh =>
      match resp with
      | .ok body =>
          let st2 := applyRefreshResponse st now body
          (st2, .returned st2.config.access_token)
      | .err _ => (st, .threw refreshFailureMessage)
  | ph => (st, ph)

/-- Two concurrent invocations A and B sharing one manager. -/
structure TwoCalls where
  st : MgrState
  a : CallPhase
  b : CallPhase
deriving DecidableEq, Repr

/-- Run the caller selected by the scheduler for one step
(`true` = A, `false` = B). -/
def schedStep (s : TwoCalls) (who : Bool) (now : Int) (resp : HttpResult) : TwoCalls :=
  if who then
    let p := stepCall s.st s.a now resp
    { s with st := p.1, a := p.2 }
  else
    let p := stepCall s.st s.b now resp
    { s with st := p.1, b := p.2 }

/-- Execute a whole schedule: a list of (caller, time, endpoint answer). -/
def runSched (s : TwoCalls) : List (Bool × Int × HttpResult) → TwoCalls
  | [] => s
  | (w, t, r) :: rest => runSched (schedStep s w t r) rest

end RB

namespace Setup

/-!
Model of `oauth-setup.ts`: the one-shot authorization flow runner.
`startCallbackServer` is modelled at request granularity (the HTTP
handler plus the one-shot server life cycle); `main` is modelled as a
function from its external inputs (environment, generated state, the
callback outcome, the exchange answer) to the ordered trace of its
observable actions and its result.
-/

/-- An incoming HTTP request as the handler sees it: the parsed pathname
and the three query parameters it inspects (absent = `undefined`). -/
structure CbRequest where
  pathname : String
  code : Option String
  state : Option String
  error : Option String
deriving DecidableEq, Repr

/-- How the listener's promise is settled. -/
inductive PromiseAction where
  | resolve (code state : String)
  | reject (msg : String)
deriving DecidableEq, Repr

/-- Observable outcome of the HTTP handler on one request: the status of
the response written (none = no response at all), the promise
settlement it performs, and whether it calls `server.close()`. -/
structure HandlerResult where
  response : Option Nat
  action : Option PromiseAction
  closed : Bool
deriving DecidableEq, Repr

/-- The request handler installed by `startCallbackServer` (source lines
34-62).  Requests whose pathname is not `/callback` fall through the
single `if` with no response, no settlement and no close.  On
`/callback`: a truthy `error` parameter answers 400, closes and rejects;
truthy `code` and `state` answer 200, close and resolve; otherwise 400,
close and reject with the missing-parameter message. -/
def handleCallbackRequest (req : CbRequest) : HandlerResult :=
  if req.pathname = "/callback" then
    if jsTruthy req.error then
      { response := some 400
        action := some (.reject ("Authorization failed: " ++ req.error.getD ""))
        closed := true }
    else if jsTruthy req.code && jsTruthy req.state then
      { response := some 200
        action := some (.resolve (req.code.getD "") (req.state.getD ""))
        closed := true }
    else
      { response := some 400
        action := some (.reject "Missing code or state parameter")
        closed := true }
  else
    { response := none, action := none, closed := false }

/-- Server life cycle: whether it still accepts connections, and the
(at most one) settlement of the promise returned to the caller. -/
structure ServerState where
  listening : Bool
  settled : Option PromiseAction
deriving DecidableEq, Repr

/-- State of the server right after `server.listen` succeeds. -/
def serverInit : ServerState := { listening := true, settled := none }

/-- Deliver one request: a closed server no longer accepts connections;
an open one runs the handler, keeps the first settlement, and closes
when the handler closed. -/
def serverStep (s : ServerState) (req : CbRequest) : ServerState :=
  if s.listening then
    let r := handleCallbackRequest req
    { listening := !r.closed
      settled :=
        match s.settled with
        | some act => some act
        | none => r.action }
  else
    s

/-- Deliver a sequence of requests in arrival order. -/
def runServer (s : ServerState) : List CbRequest → ServerState
  | [] => s
  | req :: rest => runServer (serverStep s req) rest

/-- Observable milestones of `main`, in program order. -/
inductive SetupEvent where
  | presentAuthUrl
  | startListener
  | exchangeCode
  | saveConfig
deriving DecidableEq, Repr

/-- What awaiting `startCallbackServer`'s promise produced. -/
inductive CallbackOutcome where
  | callback (code state : String)
  | failed (msg : String)
deriving DecidableEq, Repr

/-- Answer of `exchangeCodeForToken` (well-formed success or thrown error). -/
inductive ExchangeResult where
  | ok (access_token refresh_token token_type : String) (expires_in : Int)
  | err (msg : String)
deriving DecidableEq, Repr

/-- Environment read by `main` (source lines 121-124). -/
structure SetupEnv where
  reviewboard_url : Option String
  client_id : Option String
  client_secret : Option String
deriving DecidableEq, Repr

/-- `main` of `oauth-setup.ts` (source lines 117-203) as a trace
function.  If a required variable is missing the process exits before
doing anything.  Otherwise the authorization URL is printed
(`presentAuthUrl`), then `startCallbackServer` is called
(`startListener`) and its outcome awaited; on a successful callback the
returned state is compared with the generated one — a mismatch throws
before any exchange; on a match the code is exchanged
(`exchangeCode`), `expires_at = Date.now() + expires_in * 1000` is
computed and the assembled record is written (`saveConfig`). -/
def oauthSetupMain (env : SetupEnv) (state : String) (cb : CallbackOutcome)
    (exch : ExchangeResult) (now : Int) :
    List SetupEvent × Except String RB.MgrConfig :=
  if ¬(jsTruthy env.reviewboard_url ∧ jsTruthy env.client_id ∧ jsTruthy env.client_secret) then
    ([], .error "Missing required environment variables")
  else
    let events := [SetupEvent.presentAuthUrl, SetupEvent.startListener]
    match cb with
    | .failed msg => (events, .error msg)
    | .callback _cbCode returnedState =>
      if state ≠ returnedState then
        (events, .error "State mismatch - possible CSRF attack")
      else
        let events := events ++ [SetupEvent.exchangeCode]
        match exch with
        | .err msg => (events, .error msg)
        | .ok atk rtk ttk ei =>
          (events ++ [SetupEvent.saveConfig],
           .ok { access_token := some atk
                 refresh_token := rtk
                 token_type := ttk
                 expires_at := some (now + ei * 1000)
                 client_id := env.client_id.getD ""
                 client_secret := env.client_secret.getD ""
                 reviewboard_url := env.reviewboard_url.getD "" })

end Setup

namespace RBMode

/-!
Authentication-mode selection of the ReviewBoard server:
`getClient` (source lines 459-477) reads `REVIEWBOARD_TOKEN` and
`REVIEWBOARD_URL`; when both are truthy it constructs the client with a
static `Authorization: token <value>` header and never touches the
OAuth credential file; otherwise it constructs an `OAuth2TokenManager`
(which reads the file) and installs a request interceptor that sets
`Authorization: Bearer <fresh token>` on each request.
-/

/-- Environment variables consulted by `getClient`. -/
structure RBEnv where
  reviewboard_token : Option String
  reviewboard_url : Option String
deriving DecidableEq, Repr

/-- The two mutually exclusive construction paths of `ReviewBoardClient`. -/
inductive AuthMode where
  | apiToken (baseUrl token : String)
  | oauth2Managed
deriving DecidableEq, Repr

/-- `baseUrl.replace(/\/$/, "")`: strip one trailing slash. -/
def stripTrailingSlash (s : String) : String :=
  if s.data.getLast? = some '/' then ⟨s.data.dropLast⟩ else s

/-- `getClient`'s mode choice.  The boolean records whether the OAuth
credential file is read (`OAuth2TokenManager`'s constructor reads it). -/
def chooseAuthMode (env : RBEnv) : AuthMode × Bool :=
  if jsTruthy env.reviewboard_token && jsTruthy env.reviewboard_url then
    (.apiToken (stripTrailingSlash (env.reviewboard_url.getD ""))
      (env.reviewboard_token.getD ""), false)
  else
    (.oauth2Managed, true)

/-- The `Authorization` header an outgoing request carries.  In API-token
mode it is the fixed header set at construction; in OAuth2 mode the
interceptor sets `Bearer <tok>` where `tok` is what
`getValidAccessToken()` just returned for this request. -/
def requestAuthHeader (mode : AuthMode) (tok : String) : String :=
  match mode with
  | .apiToken _ t => "token " ++ t
  | .oauth2Managed => "Bearer " ++ tok

end RBMode

namespace Jira

/-!
Model of the Jira instance registry (`JiraClient`, jira-server source
lines 55-129).  `instances` maps lowercase instance names to their
configuration in registration order; `clients` is the lazily-built
cache of configured HTTP clients.
-/

/-- One registered instance (`{url, email, token}`). -/
structure InstanceCfg where
  url : String
  email : String
  token : String
deriving DecidableEq, Repr

/-- The axios client built for one instance. -/
structure ClientCfg where
  baseURL : String
  username : String
  password : String
deriving DecidableEq, Repr

/-- Registry plus client cache (the two `Map`s of `JiraClient`). -/
structure JiraState where
  instances : List (String × InstanceCfg)
  clients : List (String × ClientCfg)
deriving DecidableEq, Repr

/-- Client construction (source lines 100-126): strip one trailing
slash; for Atlassian Cloud URLs drop everything from the first `/jira`
(the regex `\/jira.*$`); choose REST API v3 for cloud, v2 otherwise. -/
def buildJiraClient (cfg : InstanceCfg) : ClientCfg :=
  let baseUrl := RBMode.stripTrailingSlash cfg.url
  let baseUrl :=
    if strIncludes baseUrl "atlassian.net" then dropFromSub baseUrl "/jira"
    else baseUrl
  let apiVersion := if strIncludes baseUrl "atlassian.net" then "3" else "2"
  { baseURL := baseUrl ++ "/rest/api/" ++ apiVersion
    username := cfg.email
    password := cfg.token }

/-- The message of the `UnknownInstance` error (source lines 95-97). -/
def unknownInstanceMessage (name : String) (keys : List String) : String :=
  "Unknown Jira instance: " ++ name ++ ". Available instances: " ++
    String.intercalate ", " keys

/-- `JiraClient.getClient` (source lines 91-129): lowercase the
requested name; unknown names throw with the enumerating message and
leave the state untouched; known names return the cached client or
build and cache one. -/
def getClient (st : JiraState) (name : String) :
    Except String ClientCfg × JiraState :=
  let instanceKey := strToLower name
  match List.lookup instanceKey st.instances with
  | none =>
      (.error (unknownInstanceMessage name (st.instances.map Prod.fst)), st)
  | some cfg =>
      match List.lookup instanceKey st.clients with
      | some c => (.ok c, st)
      | none =>
          let c := buildJiraClient cfg
          (.ok c, { st with clients := st.clients ++ [(instanceKey, c)] })

end Jira



/-!
## Shared sample data
-/

namespace RB

/-- A credential record as written by a completed setup run. -/
def sampleConfig : MgrConfig :=
  { access_token := some "AT1", refresh_token := "RT1", token_type := "Bearer"
    expires_at := some 1000000, client_id := "cid", client_secret := "csec"
    reviewboard_url := "https://rb.example" }

/-- A freshly loaded manager holding `sampleConfig`. -/
def sampleState : MgrState :=
  { config := sampleConfig, file := sampleConfig, networkCalls := 0, fileWrites := 0 }

/-- A well-formed refresh answer carrying a new access token only. -/
def sampleBody : RespBody :=
  { access_token := some "AT2", refresh_token := none, expires_in := some 3600 }

end RB

/-- Two registered Jira instances, in registration order. -/
def jiraSample : Jira.JiraState :=
  { instances :=
      [("amd", { url := "https://jira.amd.example", email := "a@x", token := "T1" }),
       ("ontrack", { url := "https://ontrack.example/", email := "o@x", token := "T2" })]
    clients := [] }

/-!
## Helper lemmas
-/

namespace RB

theorem applyRefreshResponse_config_access_token (st : MgrState) (now : Int)
    (body : RespBody) :
    (applyRefreshResponse st now body).config.access_token = body.access_token := by
  rcases body with ⟨ba, br, bi⟩
  cases br <;> cases bi <;> simp [applyRefreshResponse] <;> split <;> rfl

theorem applyRefreshResponse_config_expires_at (st : MgrState) (now : Int)
    (body : RespBody) :
    (applyRefreshResponse st now body).config.expires_at =
      body.expires_in.map (fun ei => now + ei * 1000) := by
  rcases body with ⟨ba, br, bi⟩
  cases br <;> cases bi <;> simp [applyRefreshResponse] <;> split <;> rfl

theorem applyRefreshResponse_config_refresh_token (st : MgrState) (now : Int)
    (body : RespBody) :
    (applyRefreshResponse st now body).config.refresh_token =
      (match body.refresh_token with
       | some rt => if rt ≠ "" then rt else st.config.refresh_token
       | none => st.config.refresh_token) := by
  rcases body with ⟨ba, br, bi⟩
  cases br <;> cases bi <;> simp only [applyRefreshResponse] <;> split <;> rfl

theorem applyRefreshResponse_config_frame (st : MgrState) (now : Int)
    (body : RespBody) :
    (applyRefreshResponse st now body).config.token_type = st.config.token_type ∧
    (applyRefreshResponse st now body).config.client_id = st.config.client_id ∧
    (applyRefreshResponse st now body).config.client_secret = st.config.client_secret ∧
    (applyRefreshResponse st now body).config.reviewboard_url = st.config.reviewboard_url := by
  rcases body with ⟨ba, br, bi⟩
  cases br <;> cases bi <;> simp [applyRefreshResponse] <;> split <;> simp

theorem applyRefreshResponse_file (st : MgrState) (now : Int) (body : RespBody) :
    (applyRefreshResponse st now body).file = (applyRefreshResponse st now body).config := by
  rcases body with ⟨ba, br, bi⟩
  cases br <;> cases bi <;> rfl

theorem applyRefreshResponse_counters (st : MgrState) (now : Int) (body : RespBody) :
    (applyRefreshResponse st now body).networkCalls = st.networkCalls ∧
    (applyRefreshResponse st now body).fileWrites = st.fileWrites + 1 := by
  rcases body with ⟨ba, br, bi⟩
  cases br <;> cases bi <;> exact ⟨rfl, rfl⟩

end RB

/-!
## Claim theorems
-/

/-- Claim C1: for every credential record whose `expires_at` is at or
before `now + 5min`, `getValidAccessToken()` performs a refresh-token
exchange (exactly one refresh POST is issued) and returns the newly
issued access token; the persisted record equals the in-memory record
and its `expires_at` is recomputed as `now + expires_in * 1000` from the
refresh answer. -/
theorem expired_token_is_refreshed_and_returned
    (st : RB.MgrState) (tCheck tRefresh e ei : Int) (atk : String) (body : RB.RespBody)
    (hE : st.config.expires_at = some e) (hle : e ≤ tCheck + RB.expiryBuffer)
    (hAtk : body.access_token = some atk) (hEi : body.expires_in = some ei) :
    ∃ st2 : RB.MgrState,
      RB.getValidAccessToken st tCheck tRefresh (.ok body) = .ok (some atk, st2) ∧
      st2.config.access_token = some atk ∧
      st2.config.expires_at = some (tRefresh + ei * 1000) ∧
      st2.file = st2.config ∧
      st2.networkCalls = st.networkCalls + 1 ∧
      st2.fileWrites = st.fileWrites + 1 := by
  have hexp : RB.isExpired tCheck st.config.expires_at = true := by
    simp only [RB.isExpired, hE, decide_eq_true_eq]
    omega
  refine ⟨RB.applyRefreshResponse { st with networkCalls := st.networkCalls + 1 } tRefresh body,
    ?_, ?_, ?_, ?_, ?_, ?_⟩
  · simp [RB.getValidAccessToken, hexp, RB.refreshAccessToken,
      RB.applyRefreshResponse_config_access_token, hAtk]
  · simp [RB.applyRefreshResponse_config_access_token, hAtk]
  · simp [RB.applyRefreshResponse_config_expires_at, hEi]
  · exact RB.applyRefreshResponse_file _ _ _
  · exact (RB.applyRefreshResponse_counters _ _ _).1
  · exact (RB.applyRefreshResponse_counters _ _ _).2

/-- Witness for C1, the spec's own scenario: a record already expired
(`expires_at = now - 1000` with `now = 1001000`) and a refresh endpoint
answering `{access_token: "AT2", expires_in: 3600}`: the manager returns
`"AT2"` and the persisted `expires_at` is exactly `now + 3600000`. -/
theorem expired_token_is_refreshed_and_returned_witness :
    ∃ st2 : RB.MgrState,
      RB.getValidAccessToken RB.sampleState 1001000 1001000 (.ok RB.sampleBody) =
        .ok (some "AT2", st2) ∧
      st2.config.access_token = some "AT2" ∧
      st2.config.expires_at = some (1001000 + 3600 * 1000) ∧
      st2.file = st2.config ∧
      st2.networkCalls = 0 + 1 ∧
      st2.fileWrites = 0 + 1 := by
  have h := expired_token_is_refreshed_and_returned RB.sampleState 1001000 1001000
    1000000 3600 "AT2" RB.sampleBody (by decide) (by decide) (by decide) (by decide)
  simpa [RB.sampleState] using h

/-- Claim C4: for every credential record whose `expires_at` is strictly
after `now + 5min`, `getValidAccessToken()` performs no network call and
no file write and returns the held `access_token` unchanged; a second
call in the same situation returns the same token again with no
additional side effects (the state returned is the input state itself,
so the counters of refresh POSTs and file writes are untouched). -/
theorem valid_token_returned_without_io
    (st : RB.MgrState) (t1 t1R t2 t2R e : Int) (resp1 resp2 : RB.HttpResult)
    (hE : st.config.expires_at = some e)
    (h1 : t1 + RB.expiryBuffer < e) (h2 : t2 + RB.expiryBuffer < e) :
    RB.getValidAccessToken st t1 t1R resp1 = .ok (st.config.access_token, st) ∧
    RB.getValidAccessToken st t2 t2R resp2 = .ok (st.config.access_token, st) := by
  have hv1 : RB.isExpired t1 st.config.expires_at = false := by
    simp only [RB.isExpired, hE, decide_eq_false_iff_not]
    omega
  have hv2 : RB.isExpired t2 st.config.expires_at = false := by
    simp only [RB.isExpired, hE, decide_eq_false_iff_not]
    omega
  constructor <;> simp [RB.getValidAccessToken, hv1, hv2]

/-- Witness for C4: `sampleState` expires at `1000000`; at time `100000`
two successive calls both return `some "AT1"` and leave the state (and
its zero effect counters) untouched. -/
theorem valid_token_returned_without_io_witness :
    RB.getValidAccessToken RB.sampleState 100000 100000 (.err "down") =
      .ok (some "AT1", RB.sampleState) ∧
    RB.getValidAccessToken RB.sampleState 100000 100000 (.err "down") =
      .ok (some "AT1", RB.sampleState) := by
  have h := valid_token_returned_without_io RB.sampleState 100000 100000 100000 100000
    1000000 (.err "down") (.err "down") (by decide) (by decide) (by decide)
  simpa [RB.sampleState, RB.sampleConfig] using h

/-- Claim C2 counterexample: refresh is NOT single-flight.  Two
concurrent `getValidAccessToken()` invocations against an expired
`sampleState` (expiry check of both runs before either refresh response
arrives, the interleaving A-check, B-check, A-resume, B-resume): each
caller issues its own refresh POST, so two refresh requests go out for
one expiry event — the second caller does not await the first caller's
in-flight refresh. -/
theorem concurrent_calls_issue_two_refreshes :
    (RB.runSched { st := RB.sampleState, a := .ready, b := .ready }
      [(true, 800000, .ok RB.sampleBody), (false, 800000, .ok RB.sampleBody),
       (true, 800100, .ok RB.sampleBody), (false, 800200, .ok RB.sampleBody)]).st.networkCalls
      = 2 ∧
    (RB.runSched { st := RB.sampleState, a := .ready, b := .ready }
      [(true, 800000, .ok RB.sampleBody), (false, 800000, .ok RB.sampleBody),
       (true, 800100, .ok RB.sampleBody), (false, 800200, .ok RB.sampleBody)]).a
      = .returned (some "AT2") ∧
    (RB.runSched { st := RB.sampleState, a := .ready, b := .ready }
      [(true, 800000, .ok RB.sampleBody), (false, 800000, .ok RB.sampleBody),
       (true, 800100, .ok RB.sampleBody), (false, 800200, .ok RB.sampleBody)]).b
      = .returned (some "AT2") := by
  refine ⟨?_, ?_, ?_⟩ <;> decide

/-- Claim C2 amended: the manager has no in-flight-refresh guard, so the
single-flight guarantee holds only for sequential invocations.  If two
callers interleave so that both expiry checks run before either refresh
response arrives, each issues its own refresh POST (two network calls
for one expiry event, first conjunct, at the concrete interleaved
schedule).  When the calls are sequential — the second call starts after
the first completes — the second call sees the refreshed `expires_at`
and issues no further network call and no further file write (second
conjunct). -/
theorem refresh_single_flight_only_sequential :
    ((RB.runSched { st := RB.sampleState, a := .ready, b := .ready }
      [(true, 800000, .ok RB.sampleBody), (false, 800000, .ok RB.sampleBody),
       (true, 800100, .ok RB.sampleBody), (false, 800200, .ok RB.sampleBody)]).st.networkCalls
      = 2) ∧
    ∀ (st : RB.MgrState) (t1 t1R t2 t2R e ei : Int) (atk : String)
      (body : RB.RespBody) (resp2 : RB.HttpResult),
      st.config.expires_at = some e → e ≤ t1 + RB.expiryBuffer →
      body.access_token = some atk → body.expires_in = some ei →
      t2 + RB.expiryBuffer < t1R + ei * 1000 →
      ∃ st2 : RB.MgrState,
        RB.getValidAccessToken st t1 t1R (.ok body) = .ok (some atk, st2) ∧
        st2.networkCalls = st.networkCalls + 1 ∧
        RB.getValidAccessToken st2 t2 t2R resp2 = .ok (some atk, st2) := by
  constructor
  · decide
  · intro st t1 t1R t2 t2R e ei atk body resp2 hE hle hAtk hEi hfresh
    obtain ⟨st2, hcall, hat, hexp, hfile, hnet, hfw⟩ :=
      expired_token_is_refreshed_and_returned st t1 t1R e ei atk body hE hle hAtk hEi
    have hv : RB.isExpired t2 st2.config.expires_at = false := by
      simp only [RB.isExpired, hexp, decide_eq_false_iff_not]
      omega
    refine ⟨st2, hcall, hnet, ?_⟩
    simp [RB.getValidAccessToken, hv, hat]

/-- Witness for the amended C2: concrete sequential pair of calls
against the expired `sampleState` — the first call refreshes once, the
second returns the same token with no further effect. -/
theorem refresh_single_flight_only_sequential_witness :
    ∃ st2 : RB.MgrState,
      RB.getValidAccessToken RB.sampleState 800000 800000 (.ok RB.sampleBody) =
        .ok (some "AT2", st2) ∧
      st2.networkCalls = 0 + 1 ∧
      RB.getValidAccessToken st2 800500 800500 (.err "down") = .ok (some "AT2", st2) := by
  have h := refresh_single_flight_only_sequential.2 RB.sampleState 800000 800000 800500
    800500 1000000 3600 "AT2" RB.sampleBody (.err "down")
    (by decide) (by decide) (by decide) (by decide) (by decide)
  simpa [RB.sampleState] using h

/-- Claim C3, code bug at the malformed-response input: a 2xx refresh
answer whose JSON body carries none of the expected fields is not
detected.  `refreshAccessToken` reports success, overwrites the held
`access_token` with `undefined` and `expires_at` with `NaN`
(modelled as `none`), and persists the corrupted record — instead of
leaving the state unchanged and surfacing a refresh failure as the
claim requires. -/
theorem malformed_refresh_response_corrupts_state :
    ∃ st2 : RB.MgrState,
      RB.refreshAccessToken RB.sampleState 1001000
        (.ok { access_token := none, refresh_token := none, expires_in := none }) =
        .ok st2 ∧
      st2.config ≠ RB.sampleState.config ∧
      st2.file ≠ RB.sampleState.file ∧
      st2.config.access_token = none ∧
      st2.config.expires_at = none ∧
      st2.fileWrites = RB.sampleState.fileWrites + 1 := by
  refine ⟨_, rfl, ?_, ?_, ?_, ?_, ?_⟩ <;> decide

/-- Claim C6: on every successful refresh, the previously held
`refresh_token` is preserved when the response omits one and replaced
when the response supplies one (rotation); every credential field other
than `access_token`, `refresh_token` and `expires_at` is unchanged, and
the persisted record equals the in-memory record. -/
theorem refresh_token_rotation_and_frame
    (st : RB.MgrState) (now : Int) (body : RB.RespBody) :
    ∃ st2 : RB.MgrState,
      RB.refreshAccessToken st now (.ok body) = .ok st2 ∧
      (body.refresh_token = none → st2.config.refresh_token = st.config.refresh_token) ∧
      (∀ rt : String, body.refresh_token = some rt → rt ≠ "" →
        st2.config.refresh_token = rt) ∧
      st2.config.token_type = st.config.token_type ∧
      st2.config.client_id = st.config.client_id ∧
      st2.config.client_secret = st.config.client_secret ∧
      st2.config.reviewboard_url = st.config.reviewboard_url ∧
      st2.file = st2.config := by
  refine ⟨RB.applyRefreshResponse { st with networkCalls := st.networkCalls + 1 } now body,
    rfl, ?_, ?_, (RB.applyRefreshResponse_config_frame _ _ _).1,
    (RB.applyRefreshResponse_config_frame _ _ _).2.1,
    (RB.applyRefreshResponse_config_frame _ _ _).2.2.1,
    (RB.applyRefreshResponse_config_frame _ _ _).2.2.2,
    RB.applyRefreshResponse_file _ _ _⟩
  · intro hnone
    simp [RB.applyRefreshResponse_config_refresh_token, hnone]
  · intro rt hsome hne
    simp [RB.applyRefreshResponse_config_refresh_token, hsome, hne]

/-- Witness for C6: against `sampleState`, a response omitting
`refresh_token` leaves `"RT1"` in place, and a response supplying
`"RT2"` replaces it; `token_type` is untouched in both runs. -/
theorem refresh_token_rotation_and_frame_witness :
    (∃ st2 : RB.MgrState,
      RB.refreshAccessToken RB.sampleState 1001000 (.ok RB.sampleBody) = .ok st2 ∧
      st2.config.refresh_token = "RT1" ∧ st2.config.token_type = "Bearer") ∧
    (∃ st3 : RB.MgrState,
      RB.refreshAccessToken RB.sampleState 1001000
        (.ok { access_token := some "AT2", refresh_token := some "RT2",
               expires_in := some 3600 }) = .ok st3 ∧
      st3.config.refresh_token = "RT2" ∧ st3.config.token_type = "Bearer") := by
  constructor
  · obtain ⟨st2, hrun, hnone, hsome, htt, -, -, -, -⟩ :=
      refresh_token_rotation_and_frame RB.sampleState 1001000 RB.sampleBody
    exact ⟨st2, hrun, by simpa [RB.sampleState, RB.sampleConfig] using hnone rfl,
      by simpa [RB.sampleState, RB.sampleConfig] using htt⟩
  · obtain ⟨st3, hrun, hnone, hsome, htt, -, -, -, -⟩ :=
      refresh_token_rotation_and_frame RB.sampleState 1001000
        { access_token := some "AT2", refresh_token := some "RT2", expires_in := some 3600 }
    exact ⟨st3, hrun, hsome "RT2" rfl (by decide),
      by simpa [RB.sampleState, RB.sampleConfig] using htt⟩

/-- Claim C5: in the authorization setup flow, if the state returned by
the callback differs from the state generated at session start, the
flow aborts with the CSRF state-mismatch error and the token-exchange
step is never reached (`exchangeCode` does not occur in the trace). -/
theorem csrf_state_mismatch_aborts_before_exchange
    (env : Setup.SetupEnv) (state cbCode cbState : String)
    (exch : Setup.ExchangeResult) (now : Int)
    (hEnv : jsTruthy env.reviewboard_url ∧ jsTruthy env.client_id ∧
      jsTruthy env.client_secret)
    (hNe : state ≠ cbState) :
    Setup.oauthSetupMain env state (.callback cbCode cbState) exch now =
      ([.presentAuthUrl, .startListener], .error "State mismatch - possible CSRF attack") ∧
    Setup.SetupEvent.exchangeCode ∉
      (Setup.oauthSetupMain env state (.callback cbCode cbState) exch now).1 := by
  have h : Setup.oauthSetupMain env state (.callback cbCode cbState) exch now =
      ([.presentAuthUrl, .startListener],
        .error "State mismatch - possible CSRF attack") := by
    simp [Setup.oauthSetupMain, hEnv.1, hEnv.2.1, hEnv.2.2, hNe]
  refine ⟨h, ?_⟩
  rw [h]
  decide

/-- Witness for C5: a session whose generated state is `"S1"` receives a
callback carrying state `"S2"`; the run ends in the CSRF error with only
the URL presentation and listener start in its trace. -/
theorem csrf_state_mismatch_aborts_before_exchange_witness :
    Setup.oauthSetupMain
        { reviewboard_url := some "https://rb.example", client_id := some "cid"
          client_secret := some "csec" }
        "S1" (.callback "CODE" "S2") (.ok "AT" "RT" "Bearer" 3600) 1000 =
      ([.presentAuthUrl, .startListener], .error "State mismatch - possible CSRF attack") ∧
    Setup.SetupEvent.exchangeCode ∉
      (Setup.oauthSetupMain
        { reviewboard_url := some "https://rb.example", client_id := some "cid"
          client_secret := some "csec" }
        "S1" (.callback "CODE" "S2") (.ok "AT" "RT" "Bearer" 3600) 1000).1 :=
  csrf_state_mismatch_aborts_before_exchange _ "S1" "CODE" "S2" _ 1000
    (by refine ⟨?_, ?_, ?_⟩ <;> decide) (by decide)

/-- Claim C7 counterexample: `main` does not start the callback listener
before presenting the authorization URL.  On a fully successful concrete
run the trace is `presentAuthUrl, startListener, exchangeCode,
saveConfig` — the URL is presented first, so the position of
`startListener` is not before the position of `presentAuthUrl`. -/
theorem listener_starts_after_url_presented :
    (Setup.oauthSetupMain
        { reviewboard_url := some "https://rb.example", client_id := some "cid"
          client_secret := some "csec" }
        "S1" (.callback "CODE" "S1") (.ok "AT" "RT" "Bearer" 3600) 1000).1 =
      [.presentAuthUrl, .startListener, .exchangeCode, .saveConfig] ∧
    ¬ (List.indexOf Setup.SetupEvent.startListener
          (Setup.oauthSetupMain
            { reviewboard_url := some "https://rb.example", client_id := some "cid"
              client_secret := some "csec" }
            "S1" (.callback "CODE" "S1") (.ok "AT" "RT" "Bearer" 3600) 1000).1 <
        List.indexOf Setup.SetupEvent.presentAuthUrl
          (Setup.oauthSetupMain
            { reviewboard_url := some "https://rb.example", client_id := some "cid"
              client_secret := some "csec" }
            "S1" (.callback "CODE" "S1") (.ok "AT" "RT" "Bearer" 3600) 1000).1) := by
  constructor <;> decide

/-- Claim C7 amended: whenever the required configuration is present,
the setup flow first presents the authorization URL and then starts the
callback listener, in that order, before awaiting the callback outcome —
every trace begins `presentAuthUrl, startListener`. -/
theorem url_presented_then_listener_started
    (env : Setup.SetupEnv) (state : String) (cb : Setup.CallbackOutcome)
    (exch : Setup.ExchangeResult) (now : Int)
    (hEnv : jsTruthy env.reviewboard_url ∧ jsTruthy env.client_id ∧
      jsTruthy env.client_secret) :
    (Setup.oauthSetupMain env state cb exch now).1.take 2 =
      [.presentAuthUrl, .startListener] := by
  obtain ⟨h1, h2, h3⟩ := hEnv
  rcases cb with ⟨code, cbState⟩ | msg
  · by_cases hst : state = cbState
    · rcases exch with ⟨atk, rtk, ttk, ei⟩ | m <;>
        simp [Setup.oauthSetupMain, h1, h2, h3, hst]
    · simp [Setup.oauthSetupMain, h1, h2, h3, hst]
  · simp [Setup.oauthSetupMain, h1, h2, h3]

/-- Witness for the amended C7: the successful concrete run's trace
begins with the URL presentation followed by the listener start. -/
theorem url_presented_then_listener_started_witness :
    (Setup.oauthSetupMain
        { reviewboard_url := some "https://rb.example", client_id := some "cid"
          client_secret := some "csec" }
        "S1" (.callback "CODE" "S1") (.ok "AT" "RT" "Bearer" 3600) 1000).1.take 2 =
      [.presentAuthUrl, .startListener] :=
  url_presented_then_listener_started _ "S1" (.callback "CODE" "S1")
    (.ok "AT" "RT" "Bearer" 3600) 1000 (by refine ⟨?_, ?_, ?_⟩ <;> decide)

/-- Claim C8: requesting a client for an instance name that (after
lowercasing) is not registered fails with the `UnknownInstance` error
whose message enumerates exactly the currently registered instance
names, and leaves the registry state unchanged. -/
theorem unknown_instance_error_enumerates_names
    (st : Jira.JiraState) (name : String)
    (h : List.lookup (strToLower name) st.instances = none) :
    Jira.getClient st name =
      (.error (Jira.unknownInstanceMessage name (st.instances.map Prod.fst)), st) := by
  simp [Jira.getClient, h]

/-- Witness for C8, the spec's own scenario: requesting `"foo"` against
a registry containing `amd` and `ontrack` fails with a message listing
`amd, ontrack`, and the state afterwards is the input state. -/
theorem unknown_instance_error_enumerates_names_witness :
    Jira.getClient jiraSample "foo" =
      (.error "Unknown Jira instance: foo. Available instances: amd, ontrack",
        jiraSample) := by
  have h := unknown_instance_error_enumerates_names jiraSample "foo" (by decide)
  have hmsg : Jira.unknownInstanceMessage "foo" (jiraSample.instances.map Prod.fst) =
      "Unknown Jira instance: foo. Available instances: amd, ontrack" := by decide
  rw [hmsg] at h
  exact h

/-- Claim C9: authentication-mode precedence of the ReviewBoard client.
If both `REVIEWBOARD_TOKEN` and `REVIEWBOARD_URL` are set (present and
nonempty, i.e. truthy), the client is constructed in static API-token
mode — every request carries `Authorization: token <value>` — and the
OAuth credential file is never read.  Whenever at least one of the two
is not truthy, the OAuth2 token-manager mode is chosen instead: the
file is read and every request carries `Authorization: Bearer <tok>`
for the token fetched for that request.  The header form is a function
of the construction mode alone, so one client never mixes the two. -/
theorem auth_mode_precedence
    (t u : String) (ht : t ≠ "") (hu : u ≠ "") :
    (RBMode.chooseAuthMode { reviewboard_token := some t, reviewboard_url := some u } =
      (.apiToken (RBMode.stripTrailingSlash u) t, false) ∧
      ∀ tok : String,
        RBMode.requestAuthHeader (.apiToken (RBMode.stripTrailingSlash u) t) tok =
          "token " ++ t) ∧
    (∀ env : RBMode.RBEnv,
      ¬(jsTruthy env.reviewboard_token = true ∧ jsTruthy env.reviewboard_url = true) →
        RBMode.chooseAuthMode env = (.oauth2Managed, true) ∧
        ∀ tok : String,
          RBMode.requestAuthHeader .oauth2Managed tok = "Bearer " ++ tok) := by
  refine ⟨⟨?_, fun tok => rfl⟩, fun env henv => ⟨?_, fun tok => rfl⟩⟩
  · simp [RBMode.chooseAuthMode, jsTruthy, ht, hu]
  · have hb : (jsTruthy env.reviewboard_token && jsTruthy env.reviewboard_url) = false := by
      cases htok : jsTruthy env.reviewboard_token <;>
        cases hurl : jsTruthy env.reviewboard_url <;> simp_all
    simp [RBMode.chooseAuthMode, hb]

/-- Witness for C9: with token `"TOK"` and URL `"https://rb.example/"`
the client is in API-token mode (URL with its trailing slash stripped),
the file is not read and the header is `token TOK`; with the token
variable absent the client is in OAuth2 mode, the file is read and the
header for a fresh token `"AT1"` is `Bearer AT1`. -/
theorem auth_mode_precedence_witness :
    (RBMode.chooseAuthMode
        { reviewboard_token := some "TOK", reviewboard_url := some "https://rb.example/" } =
      (.apiToken "https://rb.example" "TOK", false)) ∧
    (RBMode.requestAuthHeader (.apiToken "https://rb.example" "TOK") "ignored" =
      "token TOK") ∧
    (RBMode.chooseAuthMode
        { reviewboard_token := none, reviewboard_url := some "https://rb.example" } =
      (.oauth2Managed, true)) ∧
    (RBMode.requestAuthHeader .oauth2Managed "AT1" = "Bearer AT1") := by
  have h := auth_mode_precedence "TOK" "https://rb.example/" (by decide) (by decide)
  refine ⟨?_, ?_, ?_, ?_⟩
  · exact h.1.1.trans (by decide)
  · exact (h.1.2 "ignored").trans (by decide)
  · exact (h.2 { reviewboard_token := none, reviewboard_url := some "https://rb.example" }
      (by simp [jsTruthy])).1
  · exact ((h.2 { reviewboard_token := none, reviewboard_url := some "https://rb.example" }
      (by simp [jsTruthy])).2 "AT1").trans (by decide)

namespace Setup

theorem runServer_append (s : ServerState) (l1 l2 : List CbRequest) :
    runServer s (l1 ++ l2) = runServer (runServer s l1) l2 := by
  induction l1 generalizing s with
  | nil => rfl
  | cons r rest ih => simp [runServer, ih]

theorem serverStep_other_path (s : ServerState) (req : CbRequest)
    (h : req.pathname ≠ "/callback") : serverStep s req = s := by
  by_cases hl : s.listening
  · rcases s with ⟨l, sd⟩
    cases sd <;> simp_all [serverStep, handleCallbackRequest, h]
  · simp [serverStep, hl]

theorem runServer_other_paths (s : ServerState) (pre : List CbRequest)
    (h : ∀ r ∈ pre, r.pathname ≠ "/callback") : runServer s pre = s := by
  induction pre with
  | nil => rfl
  | cons r rest ih =>
      rw [runServer, serverStep_other_path s r (h r (by simp))]
      exact ih fun x hx => h x (by simp [hx])

end Setup

/-- Claim C10: the callback listener acts only on `/callback`.  A
request to any other path gets no response, settles nothing and leaves
the server open, and any prefix of such requests does not affect how a
later `/callback` request is served; conversely every `/callback`
request — success, error, or malformed — produces a settlement of the
pending promise and closes the server. -/
theorem callback_listener_one_shot :
    (∀ req : Setup.CbRequest, req.pathname ≠ "/callback" →
      Setup.handleCallbackRequest req =
        { response := none, action := none, closed := false }) ∧
    (∀ (pre : List Setup.CbRequest) (req : Setup.CbRequest),
      (∀ r ∈ pre, r.pathname ≠ "/callback") →
      Setup.runServer Setup.serverInit (pre ++ [req]) =
        Setup.runServer Setup.serverInit [req]) ∧
    (∀ req : Setup.CbRequest, req.pathname = "/callback" →
      (Setup.handleCallbackRequest req).closed = true ∧
      ∃ act, (Setup.handleCallbackRequest req).action = some act) := by
  refine ⟨?_, ?_, ?_⟩
  · intro req h
    simp [Setup.handleCallbackRequest, h]
  · intro pre req h
    rw [Setup.runServer_append, Setup.runServer_other_paths _ pre h]
  · intro req h
    by_cases he : jsTruthy req.error
    · simp [Setup.handleCallbackRequest, h, he]
    · by_cases hcs : jsTruthy req.code && jsTruthy req.state
      · simp [Setup.handleCallbackRequest, h, he, hcs]
      · simp [Setup.handleCallbackRequest, h, he, hcs]

/-- Witness for C10: a request for `/` is ignored outright; after it,
a well-formed `/callback` request is served exactly as if it had come
first; and that `/callback` request closes the server and resolves the
promise. -/
theorem callback_listener_one_shot_witness :
    (Setup.handleCallbackRequest { pathname := "/", code := none, state := none, error := none } =
      { response := none, action := none, closed := false }) ∧
    (Setup.runServer Setup.serverInit
        [{ pathname := "/", code := none, state := none, error := none },
         { pathname := "/callback", code := some "C", state := some "S", error := none }] =
      Setup.runServer Setup.serverInit
        [{ pathname := "/callback", code := some "C", state := some "S", error := none }]) ∧
    ((Setup.handleCallbackRequest
        { pathname := "/callback", code := some "C", state := some "S", error := none }).closed
      = true ∧
     ∃ act, (Setup.handleCallbackRequest
        { pathname := "/callback", code := some "C", state := some "S", error := none }).action
      = some act) := by
  refine ⟨callback_listener_one_shot.1 _ (by decide),
    callback_listener_one_shot.2.1
      [{ pathname := "/", code := none, state := none, error := none }]
      { pathname := "/callback", code := some "C", state := some "S", error := none }
      ?_,
    callback_listener_one_shot.2.2 _ (by decide)⟩
  intro r hr
  simp at hr
  rw [hr]
  decide
